import Mathlib

/-!
OpaqueTensorImpl.

A shallow embedding of `aten/src/ATen/OpaqueTensorImpl.h`: the tensor
implementation whose data is an externally managed handle instead of a strided
buffer.  Member functions are functions of the receiver; a member function
returns its outcome (a value, or the failure it raises) together with the
receiver as it is after the call.

The base class `TensorImpl` and the `AT_ERROR` macro are declared in headers that
are not part of the sources; they are modelled from the specification.  Extents,
dimensions and the element count are `int64_t` values, embedded in `Int`.
-/

namespace ATen

set_option linter.unusedVariables false

/-! ## Types declared outside `OpaqueTensorImpl.h` -/

/-- Modelled from the spec: `at::TensorTypeId`, the type identifier kept by the
base class; its declaration is not part of `OpaqueTensorImpl.h`. -/
structure TensorTypeId where
  id : Nat
deriving DecidableEq

/-- Modelled from the spec: `caffe2::TypeMeta`, the dtype descriptor kept by the
base class; its declaration is not part of `OpaqueTensorImpl.h`. -/
structure TypeMeta where
  id : Nat
deriving DecidableEq

/-- Modelled from the spec: `c10::Device`, the device descriptor kept by the base
class; its declaration is not part of `OpaqueTensorImpl.h`. -/
structure Device where
  type : Nat
  index : Int
deriving DecidableEq

/-- Modelled from the spec: `c10::MemoryFormat`, the argument of `is_contiguous`;
an enumeration declared in `c10/core/MemoryFormat.h`, kept here as its tag. -/
structure MemoryFormat where
  tag : Int
deriving DecidableEq

/-- The default argument `c10::MemoryFormat::Any` of `is_contiguous`. -/
def MemoryFormat.Any : MemoryFormat := ⟨0⟩

/-- Modelled from the spec: `c10::Storage`, the conventional buffer an opaque
tensor does not have; only its identity matters here. -/
structure Storage where
  id : Nat
deriving DecidableEq

/-- Modelled from the spec: `c10::VariableVersion`, the version counter used by
autograd for change tracking, kept here as the counter it designates. -/
structure VariableVersion where
  version : Nat
deriving DecidableEq

/-- Modelled from the spec: the autograd metadata a base-class pointer may refer
to ("unique per logical variable"), kept here as its identity. -/
structure AutogradMeta where
  id : Nat
deriving DecidableEq

/-- The failures of this component.  `UnsupportedOperation` is what `AT_ERROR`
raises, with the description it carries.  `InvalidSizes` is the failure of the
base class's element-count computation. -/
inductive Failure where
  | UnsupportedOperation (msg : String)
  | InvalidSizes
deriving DecidableEq

/-- Modelled from the spec: the `AT_ERROR` macro of `c10/util/Exception.h`, which
raises unconditionally a failure "carrying a human-readable description of which
structural operation was attempted".  The description is the text given to the
macro followed, in brackets, by the name of the member function in which the
macro stands (`__func__` at the place of expansion), passed here as `func`. -/
def AT_ERROR {α : Type} (func : String) (msg : String) : Except Failure α :=
  Except.error (Failure.UnsupportedOperation (msg ++ " (" ++ func ++ ")"))

/-- Largest value of `int64_t`, the type of extents and of the element count. -/
def INT64_MAX : Int := 9223372036854775807

/-! ## The base class `TensorImpl` -/

/-- Modelled from the spec: the fields of the generic base `c10::TensorImpl`
(`c10/core/TensorImpl.h` is not part of the sources): type id, dtype, device,
size vector, derived element count, the strides placeholder and storage offset,
the metadata-mutability flag, the version counter, the contiguity,
wrapped-number and reserved flags, and the autograd metadata pointer. -/
structure TensorImpl where
  type_id_ : TensorTypeId
  data_type_ : TypeMeta
  device_ : Device
  sizes_ : List Int
  strides_ : List Int
  storage_offset_ : Int
  numel_ : Int
  is_contiguous_ : Bool
  is_wrapped_number_ : Bool
  allow_tensor_metadata_change_ : Bool
  reserved_ : Bool
  version_counter_ : VariableVersion
  autograd_meta_ : Option AutogradMeta
deriving DecidableEq

namespace TensorImpl

/-- Modelled from the spec: the base-class constructor
`TensorImpl(type_id, data_type, device)`.  It records the three descriptors; the
new object has a fresh version counter and no autograd metadata (that pointer is
unique per variable).  The strided placeholders start as those of an empty
one-dimensional tensor; the derived class overwrites the size vector and the
element count, and nothing below depends on the other placeholders. -/
def create (type_id : TensorTypeId) (data_type : TypeMeta) (device : Device) : TensorImpl :=
  { type_id_ := type_id
    data_type_ := data_type
    device_ := device
    sizes_ := [0]
    strides_ := [1]
    storage_offset_ := 0
    numel_ := 0
    is_contiguous_ := true
    is_wrapped_number_ := false
    allow_tensor_metadata_change_ := true
    reserved_ := false
    version_counter_ := ⟨0⟩
    autograd_meta_ := none }

/-- Modelled from the spec: the base class's element-count computation.  It
multiplies the extents of the size vector, and "fails if the sizes are
inconsistent with a computable total element count": when an extent is negative
or the total is not a value of `int64_t`. -/
def compute_numel (self : TensorImpl) : Except Failure Int :=
  let n := self.sizes_.foldl (fun n s => n * s) 1
  if self.sizes_.all (fun s => decide (0 ≤ s)) && decide (n ≤ INT64_MAX) then
    Except.ok n
  else
    Except.error Failure.InvalidSizes

/-- Modelled from the spec: `refresh_numel()`, which recomputes the cached element
count from the size vector. -/
def refresh_numel (self : TensorImpl) : Except Failure TensorImpl :=
  match self.compute_numel with
  | Except.ok n => Except.ok { self with numel_ := n }
  | Except.error e => Except.error e

/-- Modelled from the spec: the base class's `release_resources()`, which lets go
of what the base class holds, the autograd metadata. -/
def release_resources (self : TensorImpl) : TensorImpl :=
  { self with autograd_meta_ := none }

/-- Modelled from the spec: the version-counter setter of the base class. -/
def set_version_counter (self : TensorImpl) (version_counter : VariableVersion) : TensorImpl :=
  { self with version_counter_ := version_counter }

/-- Modelled from the spec: the metadata-mutability setter of the base class. -/
def set_allow_tensor_metadata_change (self : TensorImpl) (value : Bool) : TensorImpl :=
  { self with allow_tensor_metadata_change_ := value }

end TensorImpl

/-! ## `OpaqueTensorImpl<OpaqueHandle>` -/

/-- The class `OpaqueTensorImpl<OpaqueHandle>`: a `TensorImpl` with one private
member, the handle. -/
structure OpaqueTensorImpl (OpaqueHandle : Type) extends TensorImpl where
  opaque_handle_ : OpaqueHandle
deriving DecidableEq

namespace OpaqueTensorImpl

variable {OpaqueHandle : Type}

/-- Modelled from the spec: the accessor `type_id()` of the base class. -/
def type_id (self : OpaqueTensorImpl OpaqueHandle) : TensorTypeId := self.type_id_

/-- Modelled from the spec: the accessor `dtype()` of the base class. -/
def dtype (self : OpaqueTensorImpl OpaqueHandle) : TypeMeta := self.data_type_

/-- Modelled from the spec: the accessor `device()` of the base class. -/
def device (self : OpaqueTensorImpl OpaqueHandle) : Device := self.device_

/-- Modelled from the spec: the accessor `numel()` of the base class, the cached
element count. -/
def numel (self : OpaqueTensorImpl OpaqueHandle) : Int := self.numel_

/-- The constructor: base-class construction, the handle moved into the member,
then `sizes_ = sizes.vec(); refresh_numel();`. -/
def construct (type_id : TensorTypeId) (data_type : TypeMeta) (device : Device)
    (opaque_handle : OpaqueHandle) (sizes : List Int) :
    Except Failure (OpaqueTensorImpl OpaqueHandle) :=
  let self : OpaqueTensorImpl OpaqueHandle :=
    { toTensorImpl := TensorImpl.create type_id data_type device
      opaque_handle_ := opaque_handle }
  let self : OpaqueTensorImpl OpaqueHandle := { self with sizes_ := sizes }
  match self.toTensorImpl.refresh_numel with
  | Except.ok base => Except.ok { self with toTensorImpl := base }
  | Except.error e => Except.error e

/-- The override `release_resources()`: the base class's release, then
`opaque_handle_ = {}`. -/
def release_resources [Inhabited OpaqueHandle] (self : OpaqueTensorImpl OpaqueHandle) :
    Except Failure Unit × OpaqueTensorImpl OpaqueHandle :=
  let self : OpaqueTensorImpl OpaqueHandle :=
    { self with toTensorImpl := self.toTensorImpl.release_resources }
  let self : OpaqueTensorImpl OpaqueHandle := { self with opaque_handle_ := default }
  (Except.ok (), self)

/-- The override `strides()`. -/
def strides (self : OpaqueTensorImpl OpaqueHandle) :
    Except Failure (List Int) × OpaqueTensorImpl OpaqueHandle :=
  (AT_ERROR "strides" "opaque tensors do not have strides", self)

/-- The override `is_contiguous(memory_format)`. -/
def is_contiguous (self : OpaqueTensorImpl OpaqueHandle) (memory_format : MemoryFormat) :
    Except Failure Bool × OpaqueTensorImpl OpaqueHandle :=
  (AT_ERROR "is_contiguous" "opaque tensors do not have is_contiguous", self)

/-- The override `stride(d)`. -/
def stride (self : OpaqueTensorImpl OpaqueHandle) (d : Int) :
    Except Failure Int × OpaqueTensorImpl OpaqueHandle :=
  (AT_ERROR "stride" "opaque tensors do not have strides", self)

/-- The override `resize_dim(ndim)`. -/
def resize_dim (self : OpaqueTensorImpl OpaqueHandle) (ndim : Int) :
    Except Failure Unit × OpaqueTensorImpl OpaqueHandle :=
  (AT_ERROR "resize_dim" "opaque tensors do not have resize_dim", self)

/-- The override `set_size(dim, new_size)`. -/
def set_size (self : OpaqueTensorImpl OpaqueHandle) (dim new_size : Int) :
    Except Failure Unit × OpaqueTensorImpl OpaqueHandle :=
  (AT_ERROR "set_size" "opaque tensors do not have set_size", self)

/-- The override `set_stride(dim, new_stride)`. -/
def set_stride (self : OpaqueTensorImpl OpaqueHandle) (dim new_stride : Int) :
    Except Failure Unit × OpaqueTensorImpl OpaqueHandle :=
  (AT_ERROR "set_stride" "opaque tensors do not have set_stride", self)

/-- The override `set_storage_offset(storage_offset)`. -/
def set_storage_offset (self : OpaqueTensorImpl OpaqueHandle) (storage_offset : Int) :
    Except Failure Unit × OpaqueTensorImpl OpaqueHandle :=
  (AT_ERROR "set_storage_offset" "opaque tensors do not have set_storage_offset", self)

/-- The override `maybe_zero_dim(condition_when_zero_dim)`; the pointer it would
return designates a `TensorImpl`. -/
def maybe_zero_dim (self : OpaqueTensorImpl OpaqueHandle) (condition_when_zero_dim : Bool) :
    Except Failure TensorImpl × OpaqueTensorImpl OpaqueHandle :=
  (AT_ERROR "maybe_zero_dim" "opaque tensors do not support maybe_zero_dim", self)

/-- The override `has_storage()`. -/
def has_storage (self : OpaqueTensorImpl OpaqueHandle) :
    Except Failure Bool × OpaqueTensorImpl OpaqueHandle :=
  (Except.ok false, self)

/-- The override `storage()`. -/
def storage (self : OpaqueTensorImpl OpaqueHandle) :
    Except Failure Storage × OpaqueTensorImpl OpaqueHandle :=
  (AT_ERROR "storage" "opaque tensors do not have storage", self)

/-- The override `storage_offset()`. -/
def storage_offset (self : OpaqueTensorImpl OpaqueHandle) :
    Except Failure Int × OpaqueTensorImpl OpaqueHandle :=
  (AT_ERROR "storage_offset" "opaque tensors do not have storage", self)

/-- The override `shallow_copy_and_detach(version_counter,
allow_tensor_metadata_change)`: a new object built by the constructor from the
receiver's type id, dtype, device, handle and sizes, then the field assignments
and the two setters. -/
def shallow_copy_and_detach (self : OpaqueTensorImpl OpaqueHandle)
    (version_counter : VariableVersion) (allow_tensor_metadata_change : Bool) :
    Except Failure (OpaqueTensorImpl OpaqueHandle) × OpaqueTensorImpl OpaqueHandle :=
  match construct self.type_id self.dtype self.device self.opaque_handle_ self.sizes_ with
  | Except.ok impl =>
    let impl : OpaqueTensorImpl OpaqueHandle := { impl with sizes_ := self.sizes_ }
    let impl : OpaqueTensorImpl OpaqueHandle := { impl with strides_ := self.strides_ }
    let impl : OpaqueTensorImpl OpaqueHandle := { impl with storage_offset_ := self.storage_offset_ }
    let impl : OpaqueTensorImpl OpaqueHandle := { impl with is_contiguous_ := self.is_contiguous_ }
    let impl : OpaqueTensorImpl OpaqueHandle :=
      { impl with is_wrapped_number_ := self.is_wrapped_number_ }
    let impl : OpaqueTensorImpl OpaqueHandle := { impl with reserved_ := self.reserved_ }
    let impl : OpaqueTensorImpl OpaqueHandle :=
      { impl with toTensorImpl := impl.toTensorImpl.set_version_counter version_counter }
    let impl : OpaqueTensorImpl OpaqueHandle :=
      { impl with toTensorImpl :=
          impl.toTensorImpl.set_allow_tensor_metadata_change allow_tensor_metadata_change }
    (Except.ok impl, self)
  | Except.error e => (Except.error e, self)

/-- The accessor `unsafe_opaque_handle()`: it returns a reference to the member;
the value read through the reference is the member itself. -/
def unsafe_opaque_handle (self : OpaqueTensorImpl OpaqueHandle) :
    Except Failure OpaqueHandle × OpaqueTensorImpl OpaqueHandle :=
  (Except.ok self.opaque_handle_, self)

end OpaqueTensorImpl

/-- An instance used to evaluate the definitions: sizes `[2, 3]`, handle `7`,
with autograd metadata, a version counter at `5` and non-default strided
placeholders. -/
def sample : OpaqueTensorImpl Nat :=
  { type_id_ := ⟨1⟩
    data_type_ := ⟨2⟩
    device_ := ⟨0, 0⟩
    sizes_ := [2, 3]
    strides_ := [3, 1]
    storage_offset_ := 4
    numel_ := 6
    is_contiguous_ := false
    is_wrapped_number_ := true
    allow_tensor_metadata_change_ := true
    reserved_ := true
    version_counter_ := ⟨5⟩
    autograd_meta_ := some ⟨11⟩
    opaque_handle_ := 7 }

/-- The instance the constructor returns for type id 1, dtype 2, device (0, 0),
handle 7 and sizes `[2, 3]`. -/
def constructed : OpaqueTensorImpl Nat :=
  { toTensorImpl := { TensorImpl.create ⟨1⟩ ⟨2⟩ ⟨0, 0⟩ with sizes_ := [2, 3], numel_ := 6 }
    opaque_handle_ := 7 }

/-- The class invariant the constructor establishes: the size vector passes the
element-count computation and `numel_` caches its result. -/
def OpaqueTensorImpl.invariant {OpaqueHandle : Type} (self : OpaqueTensorImpl OpaqueHandle) :
    Prop :=
  self.toTensorImpl.compute_numel = Except.ok self.numel_

deriving instance DecidableEq for Except

instance {OpaqueHandle : Type} (self : OpaqueTensorImpl OpaqueHandle) :
    Decidable self.invariant := by
  unfold OpaqueTensorImpl.invariant
  infer_instance

/-- A use of the reference returned by `unsafe_opaque_handle()`: the caller puts
`update` of the referenced member in its place (the identity for a read). -/
def OpaqueTensorImpl.unsafe_opaque_handle_update {OpaqueHandle : Type}
    (self : OpaqueTensorImpl OpaqueHandle) (update : OpaqueHandle → OpaqueHandle) :
    OpaqueTensorImpl OpaqueHandle :=
  { (self.unsafe_opaque_handle).2 with opaque_handle_ := update self.opaque_handle_ }

/-- The failure an outcome carries, if it is one. -/
def raised {α : Type} : Except Failure α → Option Failure
  | Except.error e => some e
  | Except.ok _ => none

/-- The description carried by a failure of `AT_ERROR`. -/
def Failure.description : Failure → Option String
  | Failure.UnsupportedOperation msg => some msg
  | Failure.InvalidSizes => none

/-- A call of one of the ten structural operations the class overrides with
`AT_ERROR`, with its arguments. -/
inductive StructuralCall where
  | strides
  | is_contiguous (memory_format : MemoryFormat)
  | stride (d : Int)
  | resize_dim (ndim : Int)
  | set_size (dim new_size : Int)
  | set_stride (dim new_stride : Int)
  | set_storage_offset (storage_offset : Int)
  | maybe_zero_dim (condition_when_zero_dim : Bool)
  | storage
  | storage_offset
deriving DecidableEq

namespace StructuralCall

/-- The name of the member function called. -/
def name : StructuralCall → String
  | strides => "strides"
  | is_contiguous _ => "is_contiguous"
  | stride _ => "stride"
  | resize_dim _ => "resize_dim"
  | set_size _ _ => "set_size"
  | set_stride _ _ => "set_stride"
  | set_storage_offset _ => "set_storage_offset"
  | maybe_zero_dim _ => "maybe_zero_dim"
  | storage => "storage"
  | storage_offset => "storage_offset"

/-- Dispatch of the call on a receiver: the failure raised, if any, and the
receiver after the call. -/
def invoke {OpaqueHandle : Type} (c : StructuralCall) (self : OpaqueTensorImpl OpaqueHandle) :
    Option Failure × OpaqueTensorImpl OpaqueHandle :=
  match c with
  | strides => (raised self.strides.1, self.strides.2)
  | is_contiguous memory_format =>
    (raised (self.is_contiguous memory_format).1, (self.is_contiguous memory_format).2)
  | stride d => (raised (self.stride d).1, (self.stride d).2)
  | resize_dim ndim => (raised (self.resize_dim ndim).1, (self.resize_dim ndim).2)
  | set_size dim new_size =>
    (raised (self.set_size dim new_size).1, (self.set_size dim new_size).2)
  | set_stride dim new_stride =>
    (raised (self.set_stride dim new_stride).1, (self.set_stride dim new_stride).2)
  | set_storage_offset offset =>
    (raised (self.set_storage_offset offset).1, (self.set_storage_offset offset).2)
  | maybe_zero_dim condition_when_zero_dim =>
    (raised (self.maybe_zero_dim condition_when_zero_dim).1,
      (self.maybe_zero_dim condition_when_zero_dim).2)
  | storage => (raised self.storage.1, self.storage.2)
  | storage_offset => (raised self.storage_offset.1, self.storage_offset.2)

/-- The description carried by the failure the call raises. -/
def message {OpaqueHandle : Type} (c : StructuralCall) (self : OpaqueTensorImpl OpaqueHandle) :
    Option String :=
  (c.invoke self).1.bind Failure.description

end StructuralCall

/-- A description mentions a name when the name occurs in it as a run of
consecutive characters. -/
def mentions (msg name : String) : Prop := name.toList <:+: msg.toList

instance (msg name : String) : Decidable (mentions msg name) := by
  unfold mentions
  infer_instance

/-- One operation of this class applied to a live object: a structural call, a
`has_storage()` query, a use of the reference `unsafe_opaque_handle()` returns,
`release_resources()`, or being the source of `shallow_copy_and_detach`. -/
inductive Operation (OpaqueHandle : Type) where
  | structural (c : StructuralCall)
  | has_storage
  | unsafe_opaque_handle (update : OpaqueHandle → OpaqueHandle)
  | release_resources
  | shallow_copy_and_detach (version_counter : VariableVersion)
      (allow_tensor_metadata_change : Bool)

/-- The receiver after the operation, whether the operation returned or raised. -/
def Operation.apply {OpaqueHandle : Type} [Inhabited OpaqueHandle] :
    Operation OpaqueHandle → OpaqueTensorImpl OpaqueHandle → OpaqueTensorImpl OpaqueHandle
  | Operation.structural c, self => (c.invoke self).2
  | Operation.has_storage, self => self.has_storage.2
  | Operation.unsafe_opaque_handle update, self => self.unsafe_opaque_handle_update update
  | Operation.release_resources, self => self.release_resources.2
  | Operation.shallow_copy_and_detach version_counter allow_tensor_metadata_change, self =>
    (self.shallow_copy_and_detach version_counter allow_tensor_metadata_change).2

/-- The receiver after a sequence of operations, applied from left to right. -/
def run {OpaqueHandle : Type} [Inhabited OpaqueHandle] (ops : List (Operation OpaqueHandle))
    (self : OpaqueTensorImpl OpaqueHandle) : OpaqueTensorImpl OpaqueHandle :=
  ops.foldl (fun t op => op.apply t) self

/-- A sequence of operations used to evaluate `run`: a failing mutation, a
release, a write through the handle reference, a failing query, a shallow copy
and a storage check. -/
def sample_ops : List (Operation Nat) :=
  [Operation.structural (StructuralCall.set_size 0 5),
   Operation.release_resources,
   Operation.unsafe_opaque_handle (fun h => h + 1),
   Operation.structural (StructuralCall.stride 0),
   Operation.shallow_copy_and_detach ⟨3⟩ true,
   Operation.has_storage]

/-! ## The element count -/

theorem foldl_mul_eq_prod (sizes : List Int) :
    sizes.foldl (fun n s => n * s) 1 = sizes.prod := by
  rw [List.prod_eq_foldl]

theorem TensorImpl.compute_numel_eq_ok (self : TensorImpl)
    (hnonneg : ∀ s ∈ self.sizes_, 0 ≤ s) (hfit : self.sizes_.prod ≤ INT64_MAX) :
    self.compute_numel = Except.ok self.sizes_.prod := by
  have hall : (self.sizes_.all fun s => decide (0 ≤ s)) = true := by
    simpa [List.all_eq_true] using hnonneg
  simp [TensorImpl.compute_numel, foldl_mul_eq_prod, hall, hfit]

theorem TensorImpl.compute_numel_ok_inv (self : TensorImpl) (n : Int)
    (h : self.compute_numel = Except.ok n) :
    n = self.sizes_.prod ∧ (∀ s ∈ self.sizes_, 0 ≤ s) ∧ self.sizes_.prod ≤ INT64_MAX := by
  unfold TensorImpl.compute_numel at h
  simp only [foldl_mul_eq_prod] at h
  split at h
  · rename_i hc
    simp only [Bool.and_eq_true, List.all_eq_true, decide_eq_true_eq] at hc
    cases h
    exact ⟨rfl, hc.1, hc.2⟩
  · cases h

/-! ## Construction -/

theorem OpaqueTensorImpl.construct_eq_ok {OpaqueHandle : Type} (type_id : TensorTypeId)
    (data_type : TypeMeta) (device : Device) (opaque_handle : OpaqueHandle) (sizes : List Int)
    (hnonneg : ∀ s ∈ sizes, 0 ≤ s) (hfit : sizes.prod ≤ INT64_MAX) :
    OpaqueTensorImpl.construct type_id data_type device opaque_handle sizes =
      Except.ok
        { toTensorImpl :=
            { TensorImpl.create type_id data_type device with
              sizes_ := sizes, numel_ := sizes.prod }
          opaque_handle_ := opaque_handle } := by
  have h := TensorImpl.compute_numel_eq_ok
    { TensorImpl.create type_id data_type device with sizes_ := sizes } hnonneg hfit
  simp only [OpaqueTensorImpl.construct, TensorImpl.refresh_numel, h]

theorem OpaqueTensorImpl.construct_ok_inv {OpaqueHandle : Type} (type_id : TensorTypeId)
    (data_type : TypeMeta) (device : Device) (opaque_handle : OpaqueHandle) (sizes : List Int)
    (t : OpaqueTensorImpl OpaqueHandle)
    (h : OpaqueTensorImpl.construct type_id data_type device opaque_handle sizes = Except.ok t) :
    t = { toTensorImpl :=
            { TensorImpl.create type_id data_type device with
              sizes_ := sizes, numel_ := sizes.prod }
          opaque_handle_ := opaque_handle } ∧
      (∀ s ∈ sizes, 0 ≤ s) ∧ sizes.prod ≤ INT64_MAX := by
  cases hc : TensorImpl.compute_numel
      { TensorImpl.create type_id data_type device with sizes_ := sizes } with
  | error e =>
    simp [OpaqueTensorImpl.construct, TensorImpl.refresh_numel, hc] at h
  | ok n =>
    obtain ⟨hn, hnonneg, hfit⟩ := TensorImpl.compute_numel_ok_inv _ n hc
    refine ⟨?_, hnonneg, hfit⟩
    rw [OpaqueTensorImpl.construct_eq_ok type_id data_type device opaque_handle sizes
      hnonneg hfit] at h
    cases h
    rfl

theorem OpaqueTensorImpl.construct_invariant {OpaqueHandle : Type} (type_id : TensorTypeId)
    (data_type : TypeMeta) (device : Device) (opaque_handle : OpaqueHandle) (sizes : List Int)
    (t : OpaqueTensorImpl OpaqueHandle)
    (h : OpaqueTensorImpl.construct type_id data_type device opaque_handle sizes = Except.ok t) :
    t.invariant ∧ t.sizes_ = sizes ∧ t.numel_ = sizes.prod := by
  obtain ⟨ht, hnonneg, hfit⟩ :=
    OpaqueTensorImpl.construct_ok_inv type_id data_type device opaque_handle sizes t h
  subst ht
  exact ⟨TensorImpl.compute_numel_eq_ok _ hnonneg hfit, rfl, rfl⟩

/-- C1 (as amended): for every type id, dtype, device, handle and size vector of
non-negative extents whose product is a value of `int64_t`, the constructor
returns an instance that reports `has_storage() == false` and an element count
equal to the product of the extents; the count is 0 as soon as one extent is 0. -/
theorem OpaqueTensorImpl.construct_has_storage_numel {OpaqueHandle : Type}
    (type_id : TensorTypeId) (data_type : TypeMeta) (device : Device)
    (opaque_handle : OpaqueHandle) (sizes : List Int)
    (hnonneg : ∀ s ∈ sizes, 0 ≤ s) (hfit : sizes.prod ≤ INT64_MAX) :
    ∃ t : OpaqueTensorImpl OpaqueHandle,
      OpaqueTensorImpl.construct type_id data_type device opaque_handle sizes = Except.ok t ∧
      t.has_storage.1 = Except.ok false ∧
      t.numel = sizes.prod ∧
      (0 ∈ sizes → t.numel = 0) := by
  refine ⟨_, OpaqueTensorImpl.construct_eq_ok type_id data_type device opaque_handle sizes
    hnonneg hfit, rfl, rfl, ?_⟩
  intro h0
  exact List.prod_eq_zero h0

/-- C1, evaluated: sizes `[2, 3]` give element count 6 and no storage. -/
theorem OpaqueTensorImpl.construct_has_storage_numel_witness :
    (∀ s ∈ [(2 : Int), 3], 0 ≤ s) ∧ [(2 : Int), 3].prod ≤ INT64_MAX ∧
    ∃ t : OpaqueTensorImpl Nat,
      OpaqueTensorImpl.construct ⟨1⟩ ⟨2⟩ ⟨0, 0⟩ 7 [2, 3] = Except.ok t ∧
      t.has_storage.1 = Except.ok false ∧
      t.numel = 6 ∧
      (0 ∈ [(2 : Int), 3] → t.numel = 0) :=
  ⟨by decide, by decide,
    OpaqueTensorImpl.construct_has_storage_numel ⟨1⟩ ⟨2⟩ ⟨0, 0⟩ 7 [2, 3] (by decide) (by decide)⟩

/-- C1, as stated, fails: the extents `[2^32, 2^32]` are non-negative values of
`int64_t`, their product `2^64` is not, and the constructor returns no instance. -/
theorem OpaqueTensorImpl.construct_numel_counterexample :
    ((0 : Int) ≤ 4294967296 ∧ (4294967296 : Int) ≤ INT64_MAX) ∧
    OpaqueTensorImpl.construct ⟨1⟩ ⟨2⟩ ⟨0, 0⟩ (7 : Nat) [4294967296, 4294967296] =
      Except.error Failure.InvalidSizes := by
  refine ⟨by decide, ?_⟩
  rfl

/-! ## The failing structural operations -/

/-- C2: on every instance, whatever its state, and for every argument `d` and
memory format, each of `strides()`, `stride(d)`, `is_contiguous(fmt)`, `storage()`
and `storage_offset()` raises the UnsupportedOperation failure, and so returns no
value. -/
theorem OpaqueTensorImpl.structural_queries_raise {OpaqueHandle : Type}
    (self : OpaqueTensorImpl OpaqueHandle) (d : Int) (memory_format : MemoryFormat) :
    ((∃ msg, self.strides.1 = Except.error (Failure.UnsupportedOperation msg)) ∧
      ∀ v, self.strides.1 ≠ Except.ok v) ∧
    ((∃ msg, (self.stride d).1 = Except.error (Failure.UnsupportedOperation msg)) ∧
      ∀ v, (self.stride d).1 ≠ Except.ok v) ∧
    ((∃ msg, (self.is_contiguous memory_format).1 =
        Except.error (Failure.UnsupportedOperation msg)) ∧
      ∀ v, (self.is_contiguous memory_format).1 ≠ Except.ok v) ∧
    ((∃ msg, self.storage.1 = Except.error (Failure.UnsupportedOperation msg)) ∧
      ∀ v, self.storage.1 ≠ Except.ok v) ∧
    ((∃ msg, self.storage_offset.1 = Except.error (Failure.UnsupportedOperation msg)) ∧
      ∀ v, self.storage_offset.1 ≠ Except.ok v) := by
  refine ⟨⟨⟨_, rfl⟩, ?_⟩, ⟨⟨_, rfl⟩, ?_⟩, ⟨⟨_, rfl⟩, ?_⟩, ⟨⟨_, rfl⟩, ?_⟩, ⟨⟨_, rfl⟩, ?_⟩⟩ <;>
    intro v h <;> cases h

/-- C3: on every instance and for every argument value, each of `resize_dim`,
`set_size`, `set_stride`, `set_storage_offset` and `maybe_zero_dim` raises the
UnsupportedOperation failure, and the instance after the failed call is the
instance before it: same size vector, same handle. -/
theorem OpaqueTensorImpl.structural_mutations_raise {OpaqueHandle : Type}
    (self : OpaqueTensorImpl OpaqueHandle) (ndim dim new_size new_stride offset : Int)
    (condition_when_zero_dim : Bool) :
    ((∃ msg, (self.resize_dim ndim).1 = Except.error (Failure.UnsupportedOperation msg)) ∧
      (self.resize_dim ndim).2.sizes_ = self.sizes_ ∧
      (self.resize_dim ndim).2.opaque_handle_ = self.opaque_handle_) ∧
    ((∃ msg, (self.set_size dim new_size).1 =
        Except.error (Failure.UnsupportedOperation msg)) ∧
      (self.set_size dim new_size).2.sizes_ = self.sizes_ ∧
      (self.set_size dim new_size).2.opaque_handle_ = self.opaque_handle_) ∧
    ((∃ msg, (self.set_stride dim new_stride).1 =
        Except.error (Failure.UnsupportedOperation msg)) ∧
      (self.set_stride dim new_stride).2.sizes_ = self.sizes_ ∧
      (self.set_stride dim new_stride).2.opaque_handle_ = self.opaque_handle_) ∧
    ((∃ msg, (self.set_storage_offset offset).1 =
        Except.error (Failure.UnsupportedOperation msg)) ∧
      (self.set_storage_offset offset).2.sizes_ = self.sizes_ ∧
      (self.set_storage_offset offset).2.opaque_handle_ = self.opaque_handle_) ∧
    ((∃ msg, (self.maybe_zero_dim condition_when_zero_dim).1 =
        Except.error (Failure.UnsupportedOperation msg)) ∧
      (self.maybe_zero_dim condition_when_zero_dim).2.sizes_ = self.sizes_ ∧
      (self.maybe_zero_dim condition_when_zero_dim).2.opaque_handle_ = self.opaque_handle_) :=
  ⟨⟨⟨_, rfl⟩, rfl, rfl⟩, ⟨⟨_, rfl⟩, rfl, rfl⟩, ⟨⟨_, rfl⟩, rfl, rfl⟩, ⟨⟨_, rfl⟩, rfl, rfl⟩,
    ⟨⟨_, rfl⟩, rfl, rfl⟩⟩

/-! ## Resource release -/

/-- C5: on every instance, whatever handle it holds, `release_resources()` returns
and leaves the handle equal to the handle type's default value, and a following
`unsafe_opaque_handle()` returns that default value. -/
theorem OpaqueTensorImpl.release_resources_handle {OpaqueHandle : Type}
    [Inhabited OpaqueHandle] (self : OpaqueTensorImpl OpaqueHandle) :
    self.release_resources.1 = Except.ok () ∧
    self.release_resources.2.opaque_handle_ = default ∧
    self.release_resources.2.unsafe_opaque_handle.1 = Except.ok default :=
  ⟨rfl, rfl, rfl⟩

theorem OpaqueTensorImpl.release_resources_invariant {OpaqueHandle : Type}
    [Inhabited OpaqueHandle] (self : OpaqueTensorImpl OpaqueHandle) (h : self.invariant) :
    self.release_resources.2.invariant := h

/-! ## Shallow copy -/

/-- The outcome of `shallow_copy_and_detach` on an instance, field by field. -/
theorem OpaqueTensorImpl.shallow_copy_and_detach_eq {OpaqueHandle : Type}
    (self : OpaqueTensorImpl OpaqueHandle) (h : self.invariant)
    (version_counter : VariableVersion) (allow_tensor_metadata_change : Bool) :
    self.shallow_copy_and_detach version_counter allow_tensor_metadata_change =
      (Except.ok
        { type_id_ := self.type_id_
          data_type_ := self.data_type_
          device_ := self.device_
          sizes_ := self.sizes_
          strides_ := self.strides_
          storage_offset_ := self.storage_offset_
          numel_ := self.numel_
          is_contiguous_ := self.is_contiguous_
          is_wrapped_number_ := self.is_wrapped_number_
          allow_tensor_metadata_change_ := allow_tensor_metadata_change
          reserved_ := self.reserved_
          version_counter_ := version_counter
          autograd_meta_ := none
          opaque_handle_ := self.opaque_handle_ }, self) := by
  obtain ⟨hn, hnonneg, hfit⟩ := TensorImpl.compute_numel_ok_inv _ _ h
  have hc := OpaqueTensorImpl.construct_eq_ok self.type_id self.dtype self.device
    self.opaque_handle_ self.sizes_ hnonneg hfit
  simp only [OpaqueTensorImpl.shallow_copy_and_detach, hc]
  simp [TensorImpl.create, TensorImpl.set_version_counter,
    TensorImpl.set_allow_tensor_metadata_change, OpaqueTensorImpl.type_id,
    OpaqueTensorImpl.dtype, OpaqueTensorImpl.device, hn]

/-- C4: for every instance `A` (an object for which the class invariant of the
constructor holds, every other field arbitrary), version counter `vc` and flag
`allow`,
`shallow_copy_and_detach(vc, allow)` returns an instance `B` whose size vector,
dtype, device and type id are those of `A`, whose version counter is `vc` whatever
the counter of `A`, and whose metadata-mutability flag is `allow`; `A` after the
call is `A` before it, field for field. -/
theorem OpaqueTensorImpl.shallow_copy_and_detach_round_trip {OpaqueHandle : Type}
    (A : OpaqueTensorImpl OpaqueHandle) (hA : A.invariant)
    (vc : VariableVersion) (allow : Bool) :
    ∃ B : OpaqueTensorImpl OpaqueHandle,
      A.shallow_copy_and_detach vc allow = (Except.ok B, A) ∧
      B.sizes_ = A.sizes_ ∧
      B.dtype = A.dtype ∧ B.device = A.device ∧ B.type_id = A.type_id ∧
      B.version_counter_ = vc ∧
      B.allow_tensor_metadata_change_ = allow :=
  ⟨_, OpaqueTensorImpl.shallow_copy_and_detach_eq A hA vc allow, rfl, rfl, rfl, rfl, rfl, rfl⟩

/-- C4, evaluated on `sample` (counter 5, flag true) with counter 9 and flag
false. -/
theorem OpaqueTensorImpl.shallow_copy_and_detach_round_trip_witness :
    sample.invariant ∧
    ∃ B : OpaqueTensorImpl Nat,
      sample.shallow_copy_and_detach ⟨9⟩ false = (Except.ok B, sample) ∧
      B.sizes_ = [2, 3] ∧
      B.dtype = ⟨2⟩ ∧ B.device = ⟨0, 0⟩ ∧ B.type_id = ⟨1⟩ ∧
      B.version_counter_ = ⟨9⟩ ∧
      B.allow_tensor_metadata_change_ = false :=
  ⟨by decide,
    OpaqueTensorImpl.shallow_copy_and_detach_round_trip sample (by decide) ⟨9⟩ false⟩

/-- C7: for every instance `A` (an object for which the class invariant of the
constructor holds), the instance `B` returned by
`shallow_copy_and_detach` holds a handle equal to the handle of `A`, and `A` still
holds its handle after the call; when `release_resources()` has been called on `A`
before, the handle of `B` is the default value. -/
theorem OpaqueTensorImpl.shallow_copy_and_detach_handle {OpaqueHandle : Type}
    [Inhabited OpaqueHandle] (A : OpaqueTensorImpl OpaqueHandle) (hA : A.invariant)
    (vc : VariableVersion) (allow : Bool) :
    (∃ B : OpaqueTensorImpl OpaqueHandle,
      (A.shallow_copy_and_detach vc allow).1 = Except.ok B ∧
      B.opaque_handle_ = A.opaque_handle_ ∧
      (A.shallow_copy_and_detach vc allow).2.opaque_handle_ = A.opaque_handle_) ∧
    (∃ B : OpaqueTensorImpl OpaqueHandle,
      (A.release_resources.2.shallow_copy_and_detach vc allow).1 = Except.ok B ∧
      B.opaque_handle_ = default ∧
      (A.release_resources.2.shallow_copy_and_detach vc allow).2.opaque_handle_ = default) := by
  constructor
  · rw [OpaqueTensorImpl.shallow_copy_and_detach_eq A hA vc allow]
    exact ⟨_, rfl, rfl, rfl⟩
  · rw [OpaqueTensorImpl.shallow_copy_and_detach_eq _
      (OpaqueTensorImpl.release_resources_invariant A hA) vc allow]
    exact ⟨_, rfl, rfl, rfl⟩

/-- C7, evaluated on `sample`, whose handle is 7; the default handle is 0. -/
theorem OpaqueTensorImpl.shallow_copy_and_detach_handle_witness :
    sample.invariant ∧
    (∃ B : OpaqueTensorImpl Nat,
      (sample.shallow_copy_and_detach ⟨9⟩ false).1 = Except.ok B ∧
      B.opaque_handle_ = 7 ∧
      (sample.shallow_copy_and_detach ⟨9⟩ false).2.opaque_handle_ = 7) ∧
    (∃ B : OpaqueTensorImpl Nat,
      (sample.release_resources.2.shallow_copy_and_detach ⟨9⟩ false).1 = Except.ok B ∧
      B.opaque_handle_ = 0 ∧
      (sample.release_resources.2.shallow_copy_and_detach ⟨9⟩ false).2.opaque_handle_ = 0) :=
  ⟨by decide, OpaqueTensorImpl.shallow_copy_and_detach_handle sample (by decide) ⟨9⟩ false⟩

/-- C8: for every instance `A` (an object for which the class invariant of the
constructor holds), the instance `B` returned by
`shallow_copy_and_detach` has the stride vector, storage offset, is-contiguous
flag, is-wrapped-number flag and reserved flag of `A`, whatever they are. -/
theorem OpaqueTensorImpl.shallow_copy_and_detach_metadata {OpaqueHandle : Type}
    (A : OpaqueTensorImpl OpaqueHandle) (hA : A.invariant)
    (vc : VariableVersion) (allow : Bool) :
    ∃ B : OpaqueTensorImpl OpaqueHandle,
      (A.shallow_copy_and_detach vc allow).1 = Except.ok B ∧
      B.strides_ = A.strides_ ∧
      B.storage_offset_ = A.storage_offset_ ∧
      B.is_contiguous_ = A.is_contiguous_ ∧
      B.is_wrapped_number_ = A.is_wrapped_number_ ∧
      B.reserved_ = A.reserved_ := by
  rw [OpaqueTensorImpl.shallow_copy_and_detach_eq A hA vc allow]
  exact ⟨_, rfl, rfl, rfl, rfl, rfl, rfl⟩

/-- C8, evaluated on `sample`, whose five fields differ from what the base-class
constructor sets. -/
theorem OpaqueTensorImpl.shallow_copy_and_detach_metadata_witness :
    sample.invariant ∧
    ∃ B : OpaqueTensorImpl Nat,
      (sample.shallow_copy_and_detach ⟨9⟩ false).1 = Except.ok B ∧
      B.strides_ = [3, 1] ∧
      B.storage_offset_ = 4 ∧
      B.is_contiguous_ = false ∧
      B.is_wrapped_number_ = true ∧
      B.reserved_ = true :=
  ⟨by decide, OpaqueTensorImpl.shallow_copy_and_detach_metadata sample (by decide) ⟨9⟩ false⟩

/-- C9: for every instance `A` (an object for which the class invariant of the
constructor holds), with or without autograd metadata, the instance
`B` returned by `shallow_copy_and_detach` carries no autograd metadata. -/
theorem OpaqueTensorImpl.shallow_copy_and_detach_autograd_meta {OpaqueHandle : Type}
    (A : OpaqueTensorImpl OpaqueHandle) (hA : A.invariant)
    (vc : VariableVersion) (allow : Bool) :
    ∃ B : OpaqueTensorImpl OpaqueHandle,
      (A.shallow_copy_and_detach vc allow).1 = Except.ok B ∧
      B.autograd_meta_ = none := by
  rw [OpaqueTensorImpl.shallow_copy_and_detach_eq A hA vc allow]
  exact ⟨_, rfl, rfl⟩

/-- C9, evaluated on `sample`, which carries autograd metadata. -/
theorem OpaqueTensorImpl.shallow_copy_and_detach_autograd_meta_witness :
    sample.invariant ∧ sample.autograd_meta_ = some ⟨11⟩ ∧
    ∃ B : OpaqueTensorImpl Nat,
      (sample.shallow_copy_and_detach ⟨9⟩ false).1 = Except.ok B ∧
      B.autograd_meta_ = none :=
  ⟨by decide, rfl,
    OpaqueTensorImpl.shallow_copy_and_detach_autograd_meta sample (by decide) ⟨9⟩ false⟩

/-! ## The descriptions carried by the failures -/

theorem StructuralCall.invoke_eq {OpaqueHandle : Type} (c : StructuralCall)
    (self : OpaqueTensorImpl OpaqueHandle) :
    c.invoke self =
      (some (Failure.UnsupportedOperation
        (match c with
          | StructuralCall.strides => "opaque tensors do not have strides (strides)"
          | StructuralCall.is_contiguous _ =>
            "opaque tensors do not have is_contiguous (is_contiguous)"
          | StructuralCall.stride _ => "opaque tensors do not have strides (stride)"
          | StructuralCall.resize_dim _ => "opaque tensors do not have resize_dim (resize_dim)"
          | StructuralCall.set_size _ _ => "opaque tensors do not have set_size (set_size)"
          | StructuralCall.set_stride _ _ => "opaque tensors do not have set_stride (set_stride)"
          | StructuralCall.set_storage_offset _ =>
            "opaque tensors do not have set_storage_offset (set_storage_offset)"
          | StructuralCall.maybe_zero_dim _ =>
            "opaque tensors do not support maybe_zero_dim (maybe_zero_dim)"
          | StructuralCall.storage => "opaque tensors do not have storage (storage)"
          | StructuralCall.storage_offset =>
            "opaque tensors do not have storage (storage_offset)")), self) := by
  cases c <;> rfl

/-- C6: every call of the ten structural operations raises the
UnsupportedOperation failure with a description, and the description contains the
name of the operation called; the description raised by `stride(d)` contains
`strides`; two calls raise the same description exactly when they are calls of
the same operation, so the operation attempted is told from the description. -/
theorem StructuralCall.failure_description {OpaqueHandle : Type} (c c' : StructuralCall)
    (self self' : OpaqueTensorImpl OpaqueHandle) (d : Int) :
    (∃ msg, (c.invoke self).1 = some (Failure.UnsupportedOperation msg) ∧
      c.message self = some msg ∧ mentions msg c.name) ∧
    (∃ msg, (self.stride d).1 = Except.error (Failure.UnsupportedOperation msg) ∧
      mentions msg "strides") ∧
    (c.message self = c'.message self' ↔ c.name = c'.name) := by
  refine ⟨?_, ⟨_, rfl, by decide⟩, ?_⟩
  · cases c
    all_goals exact ⟨_, rfl, rfl, by dsimp only [StructuralCall.name]; decide⟩
  · simp only [StructuralCall.message, StructuralCall.invoke_eq, Option.some_bind,
      Failure.description]
    cases c <;> cases c' <;> simp [StructuralCall.name]

/-- C6, evaluated: the descriptions raised by `stride(0)` and `strides()` on
`sample`, and the three parts of the statement for this pair of calls. -/
theorem StructuralCall.failure_description_witness :
    (StructuralCall.stride 0).message sample =
      some "opaque tensors do not have strides (stride)" ∧
    StructuralCall.strides.message constructed =
      some "opaque tensors do not have strides (strides)" ∧
    ((∃ msg, ((StructuralCall.stride 0).invoke sample).1 =
        some (Failure.UnsupportedOperation msg) ∧
      (StructuralCall.stride 0).message sample = some msg ∧
      mentions msg (StructuralCall.stride 0).name) ∧
    (∃ msg, (sample.stride 0).1 = Except.error (Failure.UnsupportedOperation msg) ∧
      mentions msg "strides") ∧
    ((StructuralCall.stride 0).message sample = StructuralCall.strides.message constructed ↔
      (StructuralCall.stride 0).name = StructuralCall.strides.name)) :=
  ⟨rfl, rfl,
    StructuralCall.failure_description (StructuralCall.stride 0) StructuralCall.strides
      sample constructed 0⟩

/-! ## The size vector and the cached element count -/

theorem OpaqueTensorImpl.shallow_copy_and_detach_snd {OpaqueHandle : Type}
    (self : OpaqueTensorImpl OpaqueHandle) (vc : VariableVersion) (allow : Bool) :
    (self.shallow_copy_and_detach vc allow).2 = self := by
  unfold OpaqueTensorImpl.shallow_copy_and_detach
  split <;> rfl

theorem Operation.apply_sizes_numel {OpaqueHandle : Type} [Inhabited OpaqueHandle]
    (op : Operation OpaqueHandle) (self : OpaqueTensorImpl OpaqueHandle) :
    (op.apply self).sizes_ = self.sizes_ ∧ (op.apply self).numel_ = self.numel_ := by
  cases op with
  | structural c => simp [Operation.apply, StructuralCall.invoke_eq]
  | has_storage => exact ⟨rfl, rfl⟩
  | unsafe_opaque_handle update => exact ⟨rfl, rfl⟩
  | release_resources => exact ⟨rfl, rfl⟩
  | shallow_copy_and_detach vc allow =>
    simp [Operation.apply, OpaqueTensorImpl.shallow_copy_and_detach_snd]

theorem run_sizes_numel {OpaqueHandle : Type} [Inhabited OpaqueHandle]
    (ops : List (Operation OpaqueHandle)) (self : OpaqueTensorImpl OpaqueHandle) :
    (run ops self).sizes_ = self.sizes_ ∧ (run ops self).numel_ = self.numel_ := by
  induction ops generalizing self with
  | nil => exact ⟨rfl, rfl⟩
  | cons op ops ih =>
    have h := Operation.apply_sizes_numel op self
    have h' := ih (op.apply self)
    simp only [run, List.foldl_cons] at h' ⊢
    exact ⟨h'.1.trans h.1, h'.2.trans h.2⟩

theorem run_invariant {OpaqueHandle : Type} [Inhabited OpaqueHandle]
    (ops : List (Operation OpaqueHandle)) (self : OpaqueTensorImpl OpaqueHandle)
    (h : self.invariant) : (run ops self).invariant := by
  obtain ⟨hs, hn⟩ := run_sizes_numel ops self
  unfold OpaqueTensorImpl.invariant TensorImpl.compute_numel at h ⊢
  rw [hs, hn]
  exact h

/-- C10: after construction with size vector `S` and any sequence of operations
of this class, the size vector of the instance is `S` and its cached element
count is the product of the extents of `S`; `shallow_copy_and_detach` then
returns an instance for which the same holds, also after any sequence of
operations on it. -/
theorem OpaqueTensorImpl.sizes_numel_invariant {OpaqueHandle : Type} [Inhabited OpaqueHandle]
    (type_id : TensorTypeId) (data_type : TypeMeta) (device : Device)
    (opaque_handle : OpaqueHandle) (S : List Int) (t : OpaqueTensorImpl OpaqueHandle)
    (ht : OpaqueTensorImpl.construct type_id data_type device opaque_handle S = Except.ok t)
    (ops ops' : List (Operation OpaqueHandle)) (vc : VariableVersion) (allow : Bool) :
    (run ops t).sizes_ = S ∧ (run ops t).numel = S.prod ∧
    ∃ B : OpaqueTensorImpl OpaqueHandle,
      ((run ops t).shallow_copy_and_detach vc allow).1 = Except.ok B ∧
      (run ops' B).sizes_ = S ∧ (run ops' B).numel = S.prod := by
  obtain ⟨hinv, hs, hn⟩ :=
    OpaqueTensorImpl.construct_invariant type_id data_type device opaque_handle S t ht
  obtain ⟨hs', hn'⟩ := run_sizes_numel ops t
  refine ⟨hs'.trans hs, hn'.trans hn, ?_⟩
  rw [OpaqueTensorImpl.shallow_copy_and_detach_eq _ (run_invariant ops t hinv) vc allow]
  refine ⟨_, rfl, ?_, ?_⟩
  · exact (run_sizes_numel ops' _).1.trans (hs'.trans hs)
  · exact (run_sizes_numel ops' _).2.trans (hn'.trans hn)

/-- C10, evaluated: the instance constructed with sizes `[2, 3]`, after
`sample_ops`, has sizes `[2, 3]` and element count 6, and so has its shallow copy
after `sample_ops`. -/
theorem OpaqueTensorImpl.sizes_numel_invariant_witness :
    OpaqueTensorImpl.construct ⟨1⟩ ⟨2⟩ ⟨0, 0⟩ (7 : Nat) [2, 3] = Except.ok constructed ∧
    (run sample_ops constructed).sizes_ = [2, 3] ∧ (run sample_ops constructed).numel = 6 ∧
    ∃ B : OpaqueTensorImpl Nat,
      ((run sample_ops constructed).shallow_copy_and_detach ⟨9⟩ false).1 = Except.ok B ∧
      (run sample_ops B).sizes_ = [2, 3] ∧ (run sample_ops B).numel = 6 :=
  ⟨rfl, OpaqueTensorImpl.sizes_numel_invariant ⟨1⟩ ⟨2⟩ ⟨0, 0⟩ 7 [2, 3] constructed rfl
    sample_ops sample_ops ⟨9⟩ false⟩

end ATen
